import Mathlib

/-!
Verification of the analysis option catalog and selection controller of
PyELEGANT's report-generation GUI (`src/pyelegant/guis/nsls2apcluster/
gui_genreport.py`), shallowly embedded in Lean.

A Python `dict` with string keys is embedded as an insertion-ordered
association list `List (String × α)` whose keys are pairwise distinct.
`dget`, `dinsert`, `ddel`, `dupdate` and `dkeys` translate `d[k]`,
`d[k] = v`, `del d[k]`, `d.update(u)` and iteration order respectively.
-/

set_option autoImplicit false

namespace PyElegant

universe u

variable {α : Type u}

/-- Lookup `d[k]` made total: the value at the first matching key, if any.
A `none` result corresponds to a Python `KeyError`. -/
def dget : List (String × α) → String → Option α
  | [], _ => none
  | (k', v) :: rest, k => if k' = k then some v else dget rest k

/-- Assignment `d[k] = v`: replace the value in place if `k` is present (keeping its
position), otherwise append the new pair at the end, as Python dicts do. -/
def dinsert : List (String × α) → String → α → List (String × α)
  | [], k, v => [(k, v)]
  | (k', v') :: rest, k, v =>
    if k' = k then (k', v) :: rest else (k', v') :: dinsert rest k v

/-- Deletion `del d[k]`: remove the first entry with key `k` (the only one, under the
no-duplicate-keys invariant); absent keys are ignored (the code only deletes
keys it has just read). -/
def ddel : List (String × α) → String → List (String × α)
  | [], _ => []
  | (k', v') :: rest, k =>
    if k' = k then rest else (k', v') :: ddel rest k

/-- Update `d.update(u)`: insert every pair of `u` in order. -/
def dupdate (d : List (String × α)) (u : List (String × α)) :
    List (String × α) :=
  u.foldl (fun acc kv => dinsert acc kv.1 kv.2) d

/-- The keys of the dict in iteration (insertion) order, `list(d)`. -/
def dkeys (d : List (String × α)) : List String :=
  d.map Prod.fst


/-! ## Parameter values

Option-set parameter values are Python scalars plus the one nested
`remote_opts` dict. Float literals never undergo arithmetic in the embedded
code (they are only stored, copied and moved), so a decimal literal is kept
exactly as written: `pfloat m e` denotes `m * 10 ^ e` (e.g. `10e-3` is
`pfloat 10 (-3)`, `-0.05` is `pfloat (-5) (-2)`). -/

/-- A value inside a `remote_opts` dict: partition/time strings, an `ntasks`
integer, or the `diag_mode` boolean. -/
inductive RVal where
  | rint (n : Int)
  | rstr (s : String)
  | rbool (b : Bool)
  deriving DecidableEq, Repr

/-- A value inside a calculation-options dict. -/
inductive PVal where
  | pint (n : Int)
  | pfloat (m e : Int)
  | pbool (b : Bool)
  | pstr (s : String)
  | popts (r : List (String × RVal))
  deriving DecidableEq, Repr

/-- One named option set: the `opt_dict` for a calculation type. -/
abbrev OptDict := List (String × PVal)

/-- Per-kind catalog: option-set name to option set, `self._calc_opts[k]`. -/
abbrev OptSetDict := List (String × OptDict)

open PVal RVal

/-! ## Seeded defaults (`MainWindow._set_default_calc_opt_sets`) -/

/-- The fixed list of analysis kinds, `self.all_nonlin_calc_types`. -/
def allNonlinCalcTypes : List String :=
  ["xy_aper", "fmap_xy", "fmap_px", "cmap_xy", "cmap_px", "tswa",
   "nonlin_chrom", "mom_aper"]

/-- Production set `self._calc_opts['xy_aper']['production']`. -/
def xyAperProd : OptDict :=
  [("n_turns", pint 1024),
   ("abs_xmax", pfloat 10 (-3)),
   ("abs_ymax", pfloat 10 (-3)),
   ("ini_ndiv", pint 51),
   ("n_lines", pint 21),
   ("neg_y_search", pbool false)]

/-- Test set of `xy_aper`: a deep copy of production with the update
`d['test'].update({'n_turns': 128})` applied. -/
def xyAperTest : OptDict :=
  dupdate xyAperProd [("n_turns", pint 128)]

def xyAperSets : OptSetDict :=
  dinsert [("production", xyAperProd)] "test" xyAperTest

/-- Production set `self._calc_opts['fmap_xy']['production']`. -/
def fmapXYProd : OptDict :=
  [("n_turns", pint 1024),
   ("xmin", pfloat (-10) (-3)),
   ("xmax", pfloat 10 (-3)),
   ("ymin", pfloat 0 0),
   ("ymax", pfloat 5 (-3)),
   ("nx", pint 201),
   ("ny", pint 201),
   ("x_offset", pfloat 1 (-6)),
   ("y_offset", pfloat 1 (-6)),
   ("delta_offset", pfloat 0 0)]

/-- Test set of `fmap_xy`: a deep copy of production updated with
`d['test'].update({'nx': 21, 'ny': 21})`. -/
def fmapXYTest : OptDict :=
  dupdate fmapXYProd [("nx", pint 21), ("ny", pint 21)]

def fmapXYSets : OptSetDict :=
  dinsert [("production", fmapXYProd)] "test" fmapXYTest

/-- Production set `self._calc_opts['fmap_px']['production']`. -/
def fmapPXProd : OptDict :=
  [("n_turns", pint 1024),
   ("delta_min", pfloat (-5) (-2)),
   ("delta_max", pfloat 5 (-2)),
   ("xmin", pfloat (-10) (-3)),
   ("xmax", pfloat 10 (-3)),
   ("ndelta", pint 201),
   ("nx", pint 201),
   ("x_offset", pfloat 1 (-6)),
   ("y_offset", pfloat 1 (-6)),
   ("delta_offset", pfloat 0 0)]

/-- Test set of `fmap_px`, updated with `d['test'].update({'nx': 21,
'ny': 21})` — exactly as in
the source, which reuses the `fmap_xy` update keys although `fmap_px` has a
`ndelta` grid axis and no `ny` key. -/
def fmapPXTest : OptDict :=
  dupdate fmapPXProd [("nx", pint 21), ("ny", pint 21)]

def fmapPXSets : OptSetDict :=
  dinsert [("production", fmapPXProd)] "test" fmapPXTest

/-- Sets of `cmap_xy`: production is a deep copy of `fmap_xy` production; test is a
deep copy of `fmap_xy` test with `n_turns` reduced to 128. -/
def cmapXYSets : OptSetDict :=
  dinsert [("production", fmapXYProd)] "test"
    (dupdate fmapXYTest [("n_turns", pint 128)])

/-- Sets of `cmap_px`: production is a deep copy of `fmap_px` production; test is a
deep copy of `fmap_px` test with `n_turns` reduced to 128. -/
def cmapPXSets : OptSetDict :=
  dinsert [("production", fmapPXProd)] "test"
    (dupdate fmapPXTest [("n_turns", pint 128)])

/-- Sets of `tswa` (`self._calc_opts['tswa']`): seeded with a production set only. -/
def tswaSets : OptSetDict :=
  [("production",
    [("n_turns", pint 1024),
     ("abs_xmax", pfloat 5 (-3)),
     ("nx", pint 50),
     ("abs_ymax", pfloat 3 (-3)),
     ("ny", pint 50),
     ("x_offset", pfloat 1 (-6)),
     ("y_offset", pfloat 1 (-6)),
     ("remote_opts", popts [("partition", rstr "short"),
                            ("time", rstr "30:00")])])]

/-- Sets of `nonlin_chrom` (`self._calc_opts['nonlin_chrom']`): seeded with a production set only. -/
def nonlinChromSets : OptSetDict :=
  [("production",
    [("n_turns", pint 1024),
     ("delta_min", pfloat (-3) (-2)),
     ("delta_max", pfloat 3 (-2)),
     ("ndelta", pint 100),
     ("x_offset", pfloat 1 (-6)),
     ("y_offset", pfloat 1 (-6)),
     ("delta_offset", pfloat 0 0),
     ("remote_opts", popts [("partition", rstr "short"),
                            ("time", rstr "30:00")]),
     ("save_fft", pbool false)])]

/-- Production set `self._calc_opts['mom_aper']['production']`. -/
def momAperProd : OptDict :=
  [("n_turns", pint 1024),
   ("x_initial", pfloat 10 (-6)),
   ("y_initial", pfloat 10 (-6)),
   ("delta_negative_start", pfloat (-1) (-3)),
   ("delta_negative_limit", pfloat (-5) (-2)),
   ("delta_positive_start", pfloat 1 (-3)),
   ("delta_positive_limit", pfloat 5 (-2)),
   ("init_delta_step_size", pfloat 5 (-3)),
   ("include_name_pattern", pstr "[QSO]*")]

/-- Test set of `mom_aper`, a deep copy of production updated with
`d['test'].update({'n_turns': 16, 'include_name_pattern': 'O*'})` for
`mom_aper`. -/
def momAperTest : OptDict :=
  dupdate momAperProd [("n_turns", pint 16),
                       ("include_name_pattern", pstr "O*")]

def momAperSets : OptSetDict :=
  dinsert [("production", momAperProd)] "test" momAperTest

/-- State of `self._calc_opts` right after `_set_default_calc_opt_sets()`: the dict
comprehension creates the kinds in `all_nonlin_calc_types` order, and each
kind's per-name dict is then assigned. -/
def setDefaultCalcOpts : List (String × OptSetDict) :=
  [("xy_aper", xyAperSets),
   ("fmap_xy", fmapXYSets),
   ("fmap_px", fmapPXSets),
   ("cmap_xy", cmapXYSets),
   ("cmap_px", cmapPXSets),
   ("tswa", tswaSets),
   ("nonlin_chrom", nonlinChromSets),
   ("mom_aper", momAperSets)]

/-- The option-set names available for a kind, in insertion order — the
contents of the kind's name-selector combo box,
`list(self._calc_opts[calc_type])`. -/
def listNames (catalog : List (String × OptSetDict)) (kind : String) :
    List String :=
  match dget catalog kind with
  | some d => dkeys d
  | none => []

/-- Lookup `self._calc_opts[calc_type][opt_set_name]` made total. -/
def getOptSet (catalog : List (String × OptSetDict)) (kind name : String) :
    Option OptDict :=
  match dget catalog kind with
  | some d => dget d name
  | none => none

/-! ## Rename of an option set (`MainWindow.open_calc_opt_edit_dialog`)

After the edit dialog is accepted, the handler compares the old and new
option-set names; only when they differ does it run
`d[new] = d[old]; del d[old]` on the kind's per-name dict and then walk both
names through the selector combo boxes (the "moved" outcome carries exactly
those two names). -/

/-- Outcome of the rename step: either the guard `old != new` failed and
nothing was touched, or the set was moved and the handler goes on to update
the combo boxes with the old and new names. -/
inductive RenameResult where
  | unchanged
  | moved (oldName newName : String)
  deriving DecidableEq, Repr

/-- The catalog mutation of `open_calc_opt_edit_dialog` (lines 330-335):
`none` models the `KeyError` Python would raise if `oldName` were absent
(`d[oldName]` is read first). -/
def renameOptSet (d : OptSetDict) (oldName newName : String) :
    Option (RenameResult × OptSetDict) :=
  if oldName = newName then some (RenameResult.unchanged, d)
  else
    match dget d oldName with
    | none => none
    | some v =>
      some (RenameResult.moved oldName newName,
            ddel (dinsert d newName v) oldName)

/-! ## Selection controller (the nonlinear include/recalc/replot checkboxes)

The per-kind checkboxes and the three `*_all` checkboxes of `MainWindow`.
A user click on a checkbox first toggles the box itself, then Qt emits
`clicked(checked)` and the connected handlers run; a programmatic
`setChecked` (as used by the `change_all_...` handlers and by
`uncheck_all_*`) emits no `clicked` signal, so it triggers no handler. -/

/-- The fixed closed set of analysis kinds, one per entry of
`all_nonlin_calc_types`. -/
inductive CalcType where
  | xy_aper | fmap_xy | fmap_px | cmap_xy | cmap_px
  | tswa | nonlin_chrom | mom_aper
  deriving DecidableEq, Repr

/-- List `all_nonlin_calc_types` as the list of `CalcType` tags. -/
def allCalcKinds : List CalcType :=
  [CalcType.xy_aper, CalcType.fmap_xy, CalcType.fmap_px, CalcType.cmap_xy,
   CalcType.cmap_px, CalcType.tswa, CalcType.nonlin_chrom, CalcType.mom_aper]

/-- Checked and enabled states of the nonlinear-calculation checkboxes. -/
structure SelState where
  includeFlags : CalcType → Bool
  recalcFlags : CalcType → Bool
  replotFlags : CalcType → Bool
  recalcEnabled : CalcType → Bool
  replotEnabled : CalcType → Bool
  includeAllFlag : Bool
  recalcAllFlag : Bool
  replotAllFlag : Bool

/-- Point update of a per-kind flag map (`setChecked`/`setEnabled` on one
kind's checkbox). -/
def updFlag (f : CalcType → Bool) (k : CalcType) (v : Bool) :
    CalcType → Bool :=
  fun t => if t = k then v else f t

/-- Loop `for calc_type in self.all_nonlin_calc_types: obj.setChecked(v)`. -/
def setAllKinds (f : CalcType → Bool) (v : Bool) : CalcType → Bool :=
  allCalcKinds.foldl (fun g k => updFlag g k v) f

/-- One user interaction with the selection checkboxes. -/
inductive SelOp where
  | setInclude (k : CalcType) (v : Bool)
  | setRecalc (k : CalcType) (v : Bool)
  | setReplot (k : CalcType) (v : Bool)
  | setIncludeAll (v : Bool)
  | setRecalcAll (v : Bool)
  | setReplotAll (v : Bool)
  deriving DecidableEq, Repr

/-- Effect of one click. Per-kind include clicks run `uncheck_all_include`
(clear the aggregate box when unchecking) and
`change_state_recalc_replot_checkboxes` (enable/disable the kind's recalc and
replot boxes); per-kind recalc/replot clicks run `uncheck_all_recalc` /
`uncheck_all_replot`; aggregate clicks run the matching
`change_all_nonlin_calc_type_checkbox_states_*`, whose `setChecked` calls
emit no `clicked` signal and hence trigger no per-kind handler. -/
def applyOp (st : SelState) : SelOp → SelState
  | SelOp.setInclude k v =>
    let st1 := { st with includeFlags := updFlag st.includeFlags k v }
    let st2 := if v then st1 else { st1 with includeAllFlag := false }
    { st2 with recalcEnabled := updFlag st2.recalcEnabled k v,
               replotEnabled := updFlag st2.replotEnabled k v }
  | SelOp.setRecalc k v =>
    let st1 := { st with recalcFlags := updFlag st.recalcFlags k v }
    if v then st1 else { st1 with recalcAllFlag := false }
  | SelOp.setReplot k v =>
    let st1 := { st with replotFlags := updFlag st.replotFlags k v }
    if v then st1 else { st1 with replotAllFlag := false }
  | SelOp.setIncludeAll v =>
    { st with includeAllFlag := v,
              includeFlags := setAllKinds st.includeFlags v }
  | SelOp.setRecalcAll v =>
    { st with recalcAllFlag := v,
              recalcFlags := setAllKinds st.recalcFlags v }
  | SelOp.setReplotAll v =>
    { st with replotAllFlag := v,
              replotFlags := setAllKinds st.replotFlags v }

/-- A sequence of user interactions, applied left to right. -/
def applyOps (st : SelState) (ops : List SelOp) : SelState :=
  ops.foldl applyOp st

/-! ## Remote options of the map dialog (`DialogCalcOptMap.update_opt_dict`) -/

/-- Python `bool(s)` on a string: false exactly for the empty string. -/
def pyBoolOfStr (s : String) : Bool := !s.isEmpty

/-- ASCII whitespace, the characters Python `str.strip()` removes (modulo
non-ASCII Unicode whitespace, which the GUI fields never hold). -/
def isPySpace (c : Char) : Bool :=
  c = ' ' || c = '\t' || c = '\n' || c = '\r' ||
  c = Char.ofNat 11 || c = Char.ofNat 12

/-- Python `str.strip()`: remove leading and trailing whitespace. -/
def pyStrip (s : String) : String :=
  String.mk (((s.data.dropWhile isPySpace).reverse.dropWhile
    isPySpace).reverse)

/-- The widget values of `DialogCalcOptMap` read back when the dialog is
accepted (only those feeding the `remote_opts` part). -/
structure MapOptWidgets where
  groupBoxRemoteOpts : Bool
  checkBoxPartition : Bool
  comboBoxPartitionText : String
  checkBoxNtasks : Bool
  spinBoxNtasksValue : Int
  checkBoxTime : Bool
  lineEditTimeText : String
  checkBoxDiagMode : Bool
  comboBoxDiagModeText : String

/-- The fresh `remote_opts = {}` dict built by `update_opt_dict`
(lines 148-159): each field is added only when its checkbox is checked; the
`time` text is stripped and dropped when blank; `diag_mode` is
`bool(self.comboBox_diag_mode.currentText())`. -/
def buildRemoteOpts (w : MapOptWidgets) : List (String × RVal) :=
  let r : List (String × RVal) := []
  let r := if w.checkBoxPartition
    then dinsert r "partition" (rstr w.comboBoxPartitionText) else r
  let r := if w.checkBoxNtasks
    then dinsert r "ntasks" (rint w.spinBoxNtasksValue) else r
  let r := if w.checkBoxTime then
      (if pyStrip w.lineEditTimeText ≠ ""
       then dinsert r "time" (rstr (pyStrip w.lineEditTimeText)) else r)
    else r
  if w.checkBoxDiagMode
  then dinsert r "diag_mode" (rbool (pyBoolOfStr w.comboBoxDiagModeText))
  else r

/-- The `remote_opts` portion of `update_opt_dict` (lines 147-163): when the
group box is checked the freshly built dict is stored; otherwise any
existing `remote_opts` entry is deleted (the source guards the `del` with a
membership test, which `ddel` absorbs). -/
def updateOptDictRemote (w : MapOptWidgets) (od : OptDict) : OptDict :=
  if w.groupBoxRemoteOpts
  then dinsert od "remote_opts" (popts (buildRemoteOpts w))
  else ddel od "remote_opts"

/-! ## Observation helpers and concrete fixtures -/

/-- The `n_turns` parameter of an option set, when stored as an integer. -/
def nTurnsOf (od : OptDict) : Option Int :=
  match dget od "n_turns" with
  | some (pint n) => some n
  | _ => none

/-- Boolean check used to state the seeded-defaults property: the kind has
both a production and a test set, and the test set's `n_turns` is at most
the production set's. -/
def hasProdAndTestWithNTurnsLE (kind : String) : Bool :=
  (listNames setDefaultCalcOpts kind).contains "production" &&
  (listNames setDefaultCalcOpts kind).contains "test" &&
  (match (getOptSet setDefaultCalcOpts kind "production").bind nTurnsOf,
         (getOptSet setDefaultCalcOpts kind "test").bind nTurnsOf with
   | some tp, some tt => decide (tt ≤ tp)
   | _, _ => false)

/-- Selection state with every checkbox unchecked and disabled. -/
def allFalseSel : SelState :=
  ⟨fun _ => false, fun _ => false, fun _ => false, fun _ => false,
   fun _ => false, false, false, false⟩

/-- Selection state with every checkbox checked and enabled. -/
def allTrueSel : SelState :=
  ⟨fun _ => true, fun _ => true, fun _ => true, fun _ => true,
   fun _ => true, true, true, true⟩

/-! ## Lemmas about the dict embedding -/

theorem dget_dinsert_self (d : List (String × α)) (k : String) (v : α) :
    dget (dinsert d k v) k = some v := by
  induction d with
  | nil => simp [dinsert, dget]
  | cons hd tl ih =>
    obtain ⟨k', v'⟩ := hd
    by_cases h : k' = k <;> simp [dinsert, dget, h, ih]

theorem dget_dinsert_ne (d : List (String × α)) (k k' : String) (v : α)
    (h : k ≠ k') : dget (dinsert d k v) k' = dget d k' := by
  induction d with
  | nil => simp [dinsert, dget, h]
  | cons hd tl ih =>
    obtain ⟨k'', v''⟩ := hd
    by_cases h2 : k'' = k
    · subst h2
      simp [dinsert, dget, h]
    · simp [dinsert, dget, h2, ih]

theorem dget_ddel_ne (d : List (String × α)) (k k' : String)
    (h : k ≠ k') : dget (ddel d k) k' = dget d k' := by
  induction d with
  | nil => simp [ddel]
  | cons hd tl ih =>
    obtain ⟨k'', v''⟩ := hd
    by_cases h2 : k'' = k
    · subst h2
      simp [ddel, dget, h]
    · simp [ddel, dget, h2, ih]

theorem dget_eq_none_of_not_mem (d : List (String × α)) (k : String)
    (h : k ∉ dkeys d) : dget d k = none := by
  induction d with
  | nil => simp [dget]
  | cons hd tl ih =>
    obtain ⟨k', v'⟩ := hd
    simp only [dkeys, List.map_cons, List.mem_cons, not_or] at h
    have hne : k' ≠ k := fun hc => h.1 hc.symm
    simp [dget, hne, ih h.2]

theorem dget_ddel_self (d : List (String × α)) (k : String)
    (hnd : (dkeys d).Nodup) : dget (ddel d k) k = none := by
  induction d with
  | nil => simp [ddel, dget]
  | cons hd tl ih =>
    obtain ⟨k', v'⟩ := hd
    simp only [dkeys, List.map_cons, List.nodup_cons] at hnd
    by_cases h : k' = k
    · subst h
      simp only [ddel, if_pos rfl]
      exact dget_eq_none_of_not_mem tl k' hnd.1
    · simp [ddel, dget, h, ih hnd.2]

theorem dkeys_dinsert (d : List (String × α)) (k : String) (v : α) :
    dkeys (dinsert d k v) =
      if k ∈ dkeys d then dkeys d else dkeys d ++ [k] := by
  induction d with
  | nil => simp [dinsert, dkeys]
  | cons hd tl ih =>
    obtain ⟨k', v'⟩ := hd
    by_cases h : k' = k
    · subst h
      simp [dinsert, dkeys]
    · have hne : ¬k = k' := fun hc => h hc.symm
      simp only [dinsert, if_neg h, dkeys, List.map_cons, List.mem_cons]
      rw [show dkeys (dinsert tl k v) = List.map Prod.fst (dinsert tl k v)
        from rfl] at ih
      rw [ih]
      simp only [dkeys]
      by_cases hm : k ∈ List.map Prod.fst tl
      · simp [hm, hne]
      · simp [hm, hne]

theorem dkeys_ddel_length (d : List (String × α)) (k : String)
    (h : k ∈ dkeys d) : (dkeys (ddel d k)).length + 1 = (dkeys d).length := by
  induction d with
  | nil => simp [dkeys] at h
  | cons hd tl ih =>
    obtain ⟨k', v'⟩ := hd
    by_cases h2 : k' = k
    · subst h2
      simp [ddel, dkeys]
    · have : k ∈ dkeys tl := by
        simp only [dkeys, List.map_cons, List.mem_cons] at h
        rcases h with h | h
        · exact absurd h.symm h2
        · exact h
      simp only [ddel, if_neg h2, dkeys, List.map_cons, List.length_cons]
      rw [show dkeys (ddel tl k) = List.map Prod.fst (ddel tl k) from rfl] at *
      have := ih this
      simp only [dkeys] at this
      omega

theorem dkeys_nodup_dinsert (d : List (String × α)) (k : String) (v : α)
    (hnd : (dkeys d).Nodup) : (dkeys (dinsert d k v)).Nodup := by
  rw [dkeys_dinsert]
  by_cases h : k ∈ dkeys d
  · simpa [h] using hnd
  · simp only [h, if_neg, ite_false]
    simpa [List.nodup_append, h] using hnd

theorem mem_dkeys_ddel (d : List (String × α)) (k k' : String)
    (h : k' ∈ dkeys (ddel d k)) : k' ∈ dkeys d := by
  induction d with
  | nil => simpa [ddel] using h
  | cons hd tl ih =>
    obtain ⟨k'', v''⟩ := hd
    by_cases h2 : k'' = k
    · subst h2
      simp only [ddel, if_pos rfl] at h
      simp only [dkeys, List.map_cons, List.mem_cons]
      exact Or.inr h
    · simp only [ddel, if_neg h2, dkeys, List.map_cons, List.mem_cons] at h ⊢
      rcases h with h | h
      · exact Or.inl h
      · exact Or.inr (ih h)

theorem dkeys_nodup_ddel (d : List (String × α)) (k : String)
    (hnd : (dkeys d).Nodup) : (dkeys (ddel d k)).Nodup := by
  induction d with
  | nil => simp [ddel, dkeys]
  | cons hd tl ih =>
    obtain ⟨k', v'⟩ := hd
    simp only [dkeys, List.map_cons, List.nodup_cons] at hnd
    by_cases h : k' = k
    · subst h
      simpa [ddel, dkeys] using hnd.2
    · simp only [ddel, if_neg h, dkeys, List.map_cons, List.nodup_cons]
      exact ⟨fun hc => hnd.1 (mem_dkeys_ddel tl k k' hc), ih hnd.2⟩

theorem mem_dkeys_of_dget (d : List (String × α)) (k : String) (v : α)
    (h : dget d k = some v) : k ∈ dkeys d := by
  induction d with
  | nil => simp [dget] at h
  | cons hd tl ih =>
    obtain ⟨k', v'⟩ := hd
    simp only [dkeys, List.map_cons, List.mem_cons]
    by_cases h2 : k' = k
    · exact Or.inl h2.symm
    · simp only [dget, if_neg h2] at h
      exact Or.inr (ih h)

/-! ## Lemmas about the selection controller -/

theorem setAllKinds_apply (f : CalcType → Bool) (v : Bool) (k : CalcType) :
    setAllKinds f v k = v := by
  cases k <;> rfl

/-- One-step preservation: no single click can make `includeAll` true while
some per-kind include flag is false. -/
theorem applyOp_preserves_includeAll_imp (st : SelState) (op : SelOp)
    (h : st.includeAllFlag = true → ∀ k, st.includeFlags k = true) :
    (applyOp st op).includeAllFlag = true →
      ∀ k, (applyOp st op).includeFlags k = true := by
  cases op with
  | setInclude k v =>
    cases v with
    | false => intro hAll; simp [applyOp] at hAll
    | true =>
      intro hAll j
      have h1 : st.includeAllFlag = true := hAll
      show updFlag st.includeFlags k true j = true
      unfold updFlag
      by_cases hj : j = k
      · simp [hj]
      · simp [hj, h h1 j]
  | setRecalc k v => cases v <;> exact h
  | setReplot k v => cases v <;> exact h
  | setIncludeAll v =>
    cases v with
    | false => intro hAll; simp [applyOp] at hAll
    | true => intro _ j; exact setAllKinds_apply st.includeFlags true j
  | setRecalcAll v => exact h
  | setReplotAll v => exact h

/-- C1 (amended): after every sequence of selection-controller mutations,
`includeAll = true` still implies that the per-kind include flag of every
analysis kind is true. (The converse direction of the claimed equivalence is
refuted by `C1_counterexample`: re-checking all kinds one by one leaves
`includeAll` false.) -/
theorem C1_includeAll_implies_all_includes (ops : List SelOp) (st : SelState)
    (h : st.includeAllFlag = true → ∀ k, st.includeFlags k = true) :
    (applyOps st ops).includeAllFlag = true →
      ∀ k, (applyOps st ops).includeFlags k = true := by
  induction ops generalizing st with
  | nil => exact h
  | cons op rest ih =>
    exact ih (applyOp st op) (applyOp_preserves_includeAll_imp st op h)

theorem C1_includeAll_implies_all_includes_witness :
    (applyOps allTrueSel [SelOp.setIncludeAll true]).includeFlags
      CalcType.tswa = true :=
  C1_includeAll_implies_all_includes [SelOp.setIncludeAll true] allTrueSel
    (fun _ k => rfl) rfl CalcType.tswa

/-- C1 (counterexample): starting from the all-checked state, unchecking one
kind's include box and re-checking it leaves every per-kind include flag
true while `includeAll` stays false, so the claimed equivalence
"(includeAll = true) iff every include flag is true" fails after the last
mutation. -/
theorem C1_counterexample :
    (allCalcKinds.all (applyOps allTrueSel
      [SelOp.setInclude CalcType.xy_aper false,
       SelOp.setInclude CalcType.xy_aper true]).includeFlags) = true ∧
    (applyOps allTrueSel
      [SelOp.setInclude CalcType.xy_aper false,
       SelOp.setInclude CalcType.xy_aper true]).includeAllFlag = false := by
  decide

/-- C5: from a state in which every kind's include flag is true and
`includeAll` is true, a click unchecking kind `B`'s include box makes
`includeAll` false, leaves `include[B]` false, and keeps every other kind's
include flag true. -/
theorem C5_uncheck_one_kind (st : SelState) (B : CalcType)
    (hall : ∀ k, st.includeFlags k = true)
    (hagg : st.includeAllFlag = true) :
    (applyOp st (SelOp.setInclude B false)).includeAllFlag = false ∧
    (applyOp st (SelOp.setInclude B false)).includeFlags B = false ∧
    ∀ k, k ≠ B → (applyOp st (SelOp.setInclude B false)).includeFlags
      k = true := by
  refine ⟨rfl, ?_, ?_⟩
  · show updFlag st.includeFlags B false B = false
    simp [updFlag]
  · intro k hk
    show updFlag st.includeFlags B false k = true
    simp [updFlag, hk, hall k]

theorem C5_uncheck_one_kind_witness :
    (applyOp allTrueSel
      (SelOp.setInclude CalcType.fmap_xy false)).includeAllFlag = false ∧
    (applyOp allTrueSel
      (SelOp.setInclude CalcType.fmap_xy false)).includeFlags
      CalcType.fmap_xy = false ∧
    (applyOp allTrueSel
      (SelOp.setInclude CalcType.fmap_xy false)).includeFlags
      CalcType.xy_aper = true := by
  have h := C5_uncheck_one_kind allTrueSel CalcType.fmap_xy
    (fun k => rfl) rfl
  exact ⟨h.1, h.2.1, h.2.2 CalcType.xy_aper (by decide)⟩

/-- C6: unchecking a kind's include box and re-checking it leaves the
stored recalc and replot flags of every kind exactly as they were —
disabling include greys the boxes out but never clears their values. -/
theorem C6_disable_enable_preserves_recalc_replot (st : SelState)
    (k j : CalcType) :
    ((applyOps st [SelOp.setInclude k false,
        SelOp.setInclude k true]).recalcFlags j = st.recalcFlags j) ∧
    ((applyOps st [SelOp.setInclude k false,
        SelOp.setInclude k true]).replotFlags j = st.replotFlags j) :=
  ⟨rfl, rfl⟩

/-! ## Rename claims -/

/-- C4: when a rename from `a` to a distinct name `b` succeeds, looking up
`a` afterwards fails (a `NotFoundError`, embedded as `none`) and looking up
`b` yields exactly the option set previously stored under `a`. -/
theorem C4_rename_then_get (d : OptSetDict) (a b : String)
    (res : RenameResult) (d' : OptSetDict) (hnd : (dkeys d).Nodup)
    (hab : a ≠ b) (h : renameOptSet d a b = some (res, d')) :
    dget d' a = none ∧ dget d' b = dget d a := by
  simp only [renameOptSet, if_neg hab] at h
  cases hv : dget d a with
  | none => rw [hv] at h; simp at h
  | some v =>
    rw [hv] at h
    simp only [Option.some.injEq, Prod.mk.injEq] at h
    obtain ⟨-, hd'⟩ := h
    subst hd'
    constructor
    · exact dget_ddel_self _ a (dkeys_nodup_dinsert d b v hnd)
    · rw [dget_ddel_ne _ a b hab, dget_dinsert_self]

theorem C4_rename_then_get_witness :
    dget (ddel (dinsert xyAperSets "prod2" xyAperProd) "production")
      "production" = none ∧
    dget (ddel (dinsert xyAperSets "prod2" xyAperProd) "production")
      "prod2" = dget xyAperSets "production" :=
  C4_rename_then_get xyAperSets "production" "prod2"
    (RenameResult.moved "production" "prod2")
    (ddel (dinsert xyAperSets "prod2" xyAperProd) "production")
    (by decide) (by decide) (by decide)

/-- C7: renaming a present option set to its own name is the identity on
the per-kind catalog and reports the "unchanged" outcome (the handler's
`old != new` guard skips the whole mutation). -/
theorem C7_rename_same_name_noop (d : OptSetDict) (n : String)
    (hpresent : (dget d n).isSome = true) :
    renameOptSet d n n = some (RenameResult.unchanged, d) := by
  simp [renameOptSet]

theorem C7_rename_same_name_noop_witness :
    renameOptSet xyAperSets "production" "production" =
      some (RenameResult.unchanged, xyAperSets) :=
  C7_rename_same_name_noop xyAperSets "production" (by decide)

/-- C2 (counterexample): renaming `production` to `test` in the seeded
`xy_aper` catalog is a conflict — `test` exists and differs from the set
being renamed — yet the code succeeds instead of failing with
`ConflictError`: the `test` entry is silently overwritten and the catalog
drops from two entries to one, so the claimed all-or-nothing error
behaviour is false at this input. -/
theorem C2_rename_counterexample :
    "test" ∈ dkeys xyAperSets ∧ ("production" : String) ≠ "test" ∧
    xyAperTest ≠ xyAperProd ∧
    renameOptSet xyAperSets "production" "test" =
      some (RenameResult.moved "production" "test",
            [("test", xyAperProd)]) := by
  decide

/-- C2 (amended): rename with distinct names performs no validation at all.
Whenever the old name is present it succeeds — even when the new name is
empty or collides with an existing entry. The moved set is readable under
the new name, the old name is gone; a colliding target is overwritten, so
the kind's entry count drops by one, while a fresh target keeps it
unchanged. -/
theorem C2_rename_never_validates (d : OptSetDict) (a b : String)
    (v : OptDict) (hnd : (dkeys d).Nodup) (hab : a ≠ b)
    (hv : dget d a = some v) :
    renameOptSet d a b =
      some (RenameResult.moved a b, ddel (dinsert d b v) a) ∧
    dget (ddel (dinsert d b v) a) b = some v ∧
    dget (ddel (dinsert d b v) a) a = none ∧
    (b ∈ dkeys d →
      (dkeys (ddel (dinsert d b v) a)).length + 1 = (dkeys d).length) ∧
    (b ∉ dkeys d →
      (dkeys (ddel (dinsert d b v) a)).length = (dkeys d).length) := by
  have hmem : a ∈ dkeys d := mem_dkeys_of_dget d a v hv
  refine ⟨by simp [renameOptSet, hab, hv], ?_, ?_, ?_, ?_⟩
  · rw [dget_ddel_ne _ a b hab, dget_dinsert_self]
  · exact dget_ddel_self _ a (dkeys_nodup_dinsert d b v hnd)
  · intro hb
    have ha : a ∈ dkeys (dinsert d b v) := by
      rw [dkeys_dinsert]
      simp [hb, hmem]
    have hlen := dkeys_ddel_length (dinsert d b v) a ha
    rw [dkeys_dinsert] at hlen
    simpa [hb] using hlen
  · intro hb
    have ha : a ∈ dkeys (dinsert d b v) := by
      rw [dkeys_dinsert]
      simp [hb, hmem]
    have hlen := dkeys_ddel_length (dinsert d b v) a ha
    rw [dkeys_dinsert] at hlen
    simp only [hb, if_neg, ite_false, List.length_append,
      List.length_singleton] at hlen
    omega

theorem C2_rename_never_validates_witness :
    (renameOptSet xyAperSets "production" "test" =
      some (RenameResult.moved "production" "test",
            ddel (dinsert xyAperSets "test" xyAperProd) "production")) ∧
    (dkeys (ddel (dinsert xyAperSets "test" xyAperProd)
      "production")).length + 1 = (dkeys xyAperSets).length := by
  have h := C2_rename_never_validates xyAperSets "production" "test"
    xyAperProd (by decide) (by decide) (by decide)
  exact ⟨h.1, h.2.2.2.1 (by decide)⟩

/-! ## Seeded-defaults claims -/

/-- C3 (counterexample): the claim fails for the kind `tswa` (and likewise
`nonlin_chrom`): after seeding, its name list has no `test` entry at all. -/
theorem C3_seed_counterexample :
    "tswa" ∈ dkeys setDefaultCalcOpts ∧
    "test" ∉ listNames setDefaultCalcOpts "tswa" := by
  decide

/-- C3 (amended): after seeding, the six kinds `xy_aper`, `fmap_xy`,
`fmap_px`, `cmap_xy`, `cmap_px` and `mom_aper` each list both `production`
and `test`, with the test set's `n_turns` at most the production set's;
`tswa` and `nonlin_chrom` are seeded with a production set only. -/
theorem C3_seeded_names_and_turn_counts :
    (["xy_aper", "fmap_xy", "fmap_px", "cmap_xy", "cmap_px",
      "mom_aper"].all hasProdAndTestWithNTurnsLE) = true ∧
    listNames setDefaultCalcOpts "tswa" = ["production"] ∧
    listNames setDefaultCalcOpts "nonlin_chrom" = ["production"] := by
  decide

/-- C9 (code evaluation at the failing input): the seeded `test` set of
`fmap_px` carries a `ny` key that its `production` set does not have — the
`update({'nx': 21, 'ny': 21})` copied from the xy variant appends a spurious
`ny` entry instead of reducing `ndelta` — so the key sets differ; `cmap_px`
inherits the same extra key. -/
theorem C9_fmap_px_extra_ny_key :
    getOptSet setDefaultCalcOpts "fmap_px" "test" = some fmapPXTest ∧
    "ny" ∉ dkeys fmapPXProd ∧
    "ny" ∈ dkeys fmapPXTest ∧
    dget fmapPXTest "ny" = some (pint 21) ∧
    dget fmapPXTest "ndelta" = some (pint 201) ∧
    "ny" ∈ dkeys (dupdate fmapPXTest [("n_turns", pint 128)]) := by
  decide

/-! ## Remote-options claims -/

/-- C8 (counterexample): with the remote group box and the time checkbox
checked and the time field holding the non-blank text `abc` — which is not
of the form `HH:MM` — the commit stores the string verbatim instead of
rejecting the spec with a `ValidationError`. -/
theorem C8_time_counterexample :
    buildRemoteOpts ⟨true, false, "", false, 0, true, "abc", false, ""⟩ =
      [("time", rstr "abc")] ∧
    updateOptDictRemote ⟨true, false, "", false, 0, true, "abc", false, ""⟩
      [] = [("remote_opts", popts [("time", rstr "abc")])] := by
  decide

/-- C8 (amended): an unchecked time field or a blank (whitespace-only) time
text leaves `time` absent from the stored remote options; a checked,
non-blank time text is stored verbatim (stripped), with no `HH:MM` format
validation and no failure path. -/
theorem C8_time_blank_absent_nonblank_verbatim (w : MapOptWidgets) :
    ((w.checkBoxTime = false ∨ pyStrip w.lineEditTimeText = "") →
      dget (buildRemoteOpts w) "time" = none) ∧
    (w.checkBoxTime = true → pyStrip w.lineEditTimeText ≠ "" →
      dget (buildRemoteOpts w) "time" =
        some (rstr (pyStrip w.lineEditTimeText))) := by
  obtain ⟨g, cp, cpt, cn, cnv, ct, ctt, cd, cdt⟩ := w
  cases cp <;> cases cn <;> cases cd <;> cases ct <;>
    by_cases hS : pyStrip ctt = "" <;>
    simp [buildRemoteOpts, dget, hS]

theorem C8_time_witness :
    dget (buildRemoteOpts ⟨true, true, "short", false, 0, true, " 30:00 ",
      false, ""⟩) "time" = some (rstr "30:00") ∧
    dget (buildRemoteOpts ⟨true, true, "short", false, 0, true, "  ",
      false, ""⟩) "time" = none := by
  refine ⟨?_, ?_⟩
  · have h := (C8_time_blank_absent_nonblank_verbatim
      ⟨true, true, "short", false, 0, true, " 30:00 ", false, ""⟩).2
      rfl (by decide)
    simpa using h
  · exact (C8_time_blank_absent_nonblank_verbatim
      ⟨true, true, "short", false, 0, true, "  ", false, ""⟩).1
      (Or.inr (by decide))

/-- C10: when the dialog commits with the remote group box checked and the
diag-mode checkbox checked, the stored `diag_mode` is
`bool(comboBox text)`: `true` for every non-empty selector text — including
the text `False` — and `false` exactly when the text is empty. -/
theorem C10_diag_mode_truthiness (w : MapOptWidgets) (od : OptDict)
    (hg : w.groupBoxRemoteOpts = true) (hd : w.checkBoxDiagMode = true) :
    dget (updateOptDictRemote w od) "remote_opts" =
      some (popts (buildRemoteOpts w)) ∧
    dget (buildRemoteOpts w) "diag_mode" =
      some (rbool (pyBoolOfStr w.comboBoxDiagModeText)) ∧
    (w.comboBoxDiagModeText ≠ "" →
      dget (buildRemoteOpts w) "diag_mode" = some (rbool true)) ∧
    (w.comboBoxDiagModeText = "" →
      dget (buildRemoteOpts w) "diag_mode" = some (rbool false)) := by
  have h2 : dget (buildRemoteOpts w) "diag_mode" =
      some (rbool (pyBoolOfStr w.comboBoxDiagModeText)) := by
    simp [buildRemoteOpts, hd, dget_dinsert_self]
  refine ⟨?_, h2, ?_, ?_⟩
  · simp [updateOptDictRemote, hg, dget_dinsert_self]
  · intro hne
    rw [h2]
    have hie : w.comboBoxDiagModeText.isEmpty = false := by
      rw [Bool.eq_false_iff]
      intro hc
      exact hne ((String.isEmpty_iff _).mp hc)
    simp [pyBoolOfStr, hie]
  · intro heq
    rw [h2, heq]
    rfl

theorem C10_diag_mode_truthiness_witness :
    dget (buildRemoteOpts ⟨true, false, "", false, 0, false, "", true,
      "False"⟩) "diag_mode" = some (rbool true) :=
  (C10_diag_mode_truthiness
    ⟨true, false, "", false, 0, false, "", true, "False"⟩ [] rfl rfl).2.2.1
    (by decide)

end PyElegant
